import Mathlib

/-!
Verification of the Linux sandbox interposition engine
(Public/Src/Sandbox/Linux/bxl_observer.hpp and detours.cpp).

The development shallowly embeds the syscall-wrapper templates
(`fwd_##name`, `check_fwd_and_report_##name`, `fwd_and_report_##name`),
the `result_t` errno capture/restore discipline, the open-event
classification (`CreateFileOpen`), the directory-rename loop
(`renameat`), the fork/clone child reporting, the exec-family
environment handling, and the empty-path unlink short-circuits.

Machine integers are modelled as `Int`/`Nat`; the behavior of a real
(un-interposed) libc call is an input to each wrapper model: its return
value together with the value `errno` holds immediately after it
returns.  External collaborators that are declared but not defined under
src (the policy client `create_access`, `AccessCheckResult::Combine`,
the reporting channel) are modelled from the spec where a claim needs
their behavior; each such definition is marked in its doc comment.
-/

namespace BxlSandbox

/-- Linux errno value EPERM (operation not permitted). -/
def EPERM : Int := 1

/-- Linux errno value ENOENT (no such file or directory). -/
def ENOENT : Int := 2

/-- Linux errno value ENOSYS (function not implemented). -/
def ENOSYS : Int := 38

/-- Linux open flag O_RDONLY. -/
def O_RDONLY : Nat := 0

/-- Linux open flag O_WRONLY. -/
def O_WRONLY : Nat := 1

/-- Linux open flag O_RDWR. -/
def O_RDWR : Nat := 2

/-- Linux access-mode mask O_ACCMODE. -/
def O_ACCMODE : Nat := 3

/-- Linux open flag O_CREAT (octal 0100). -/
def O_CREAT : Nat := 64

/-- Linux open flag O_TRUNC (octal 01000). -/
def O_TRUNC : Nat := 512

/-- Linux open flag O_NOFOLLOW (octal 0400000). -/
def O_NOFOLLOW : Nat := 131072

/-- Linux AT_FDCWD sentinel directory descriptor. -/
def AT_FDCWD : Int := -100

/-- Linux AT_SYMLINK_FOLLOW flag (0x400). -/
def AT_SYMLINK_FOLLOW : Nat := 1024

/-- Subset of the es_event_type_t enumeration used by the intercepted wrappers. -/
inductive EventType where
  | NOTIFY_OPEN
  | NOTIFY_WRITE
  | NOTIFY_CREATE
  | NOTIFY_UNLINK
  | NOTIFY_RENAME
  | NOTIFY_READLINK
  | NOTIFY_READDIR
  | NOTIFY_STAT
  | NOTIFY_SETTIME
  | NOTIFY_SETMODE
  | AUTH_SETOWNER
  | NOTIFY_ACCESS
  | NOTIFY_EXEC
  | NOTIFY_FORK
  | NOTIFY_EXIT
deriving DecidableEq, Repr

/-- Decision part of an AccessCheckResult as consumed by the wrappers in
src: only its `ShouldDenyAccess()` bit is read (in `should_deny`). -/
structure AccessCheckResult where
  shouldDenyAccess : Bool
deriving DecidableEq, Repr

/-- Modelled from the spec: `AccessCheckResult::Combine` (defined outside
src) is "combinable via an associative Combine operation that takes the
stronger denial when two checks are joined".  On the should-deny bit this
is disjunction. -/
def AccessCheckResult.Combine (a b : AccessCheckResult) : AccessCheckResult :=
  { shouldDenyAccess := a.shouldDenyAccess || b.shouldDenyAccess }

/-- Observer state read by `IsEnabled` / `should_deny`
(BxlObserver fields: sandbox_ validity, the AllowChildProcessesToBreakAway
policy flag, whether getpid() differs from rootPid_, and the
FailUnexpectedFileAccesses policy flag). -/
structure SandboxState where
  isValid : Bool
  allowChildProcessesToBreakAway : Bool
  pidNotRoot : Bool
  failUnexpectedAccesses : Bool
deriving DecidableEq, Repr

/-- BxlObserver::IsEnabled: successfully initialized and NOT (child
processes should break away AND this is a child process). -/
def IsEnabled (s : SandboxState) : Bool :=
  s.isValid && !(s.allowChildProcessesToBreakAway && s.pidNotRoot)

/-- BxlObserver::IsFailingUnexpectedAccesses: reads the
FailUnexpectedFileAccesses manifest flag. -/
def IsFailingUnexpectedAccesses (s : SandboxState) : Bool :=
  s.failUnexpectedAccesses

/-- BxlObserver::should_deny: the access is denied when the sandbox is
enabled, the check wants to deny, and the fail-unexpected-accesses flag
is set. -/
def should_deny (s : SandboxState) (check : AccessCheckResult) : Bool :=
  IsEnabled s && check.shouldDenyAccess && IsFailingUnexpectedAccesses s

/-- The result_t template of bxl_observer.hpp: a syscall result together
with the errno value captured at construction time (for the one-argument
constructor, the value `errno` holds right after the real call). -/
structure result_t (T : Type) where
  my_errno : Int
  result : T
deriving DecidableEq, Repr

/-- result_t::restore: returns the remembered result and resets the guest
errno to the remembered errno value.  The second component is the
guest-visible errno after the wrapper returns. -/
def result_t.restore {T : Type} (r : result_t T) : T × Int :=
  (r.result, r.my_errno)

/-- result_t::get. -/
def result_t.get {T : Type} (r : result_t T) : T :=
  r.result

/-- result_t::get_errno. -/
def result_t.get_errno {T : Type} (r : result_t T) : Int :=
  r.my_errno

/-- The get_errno_from_result helper of detours.cpp: propagates errno
when the result is -1, otherwise 0. -/
def get_errno_from_result (r : result_t Int) : Int :=
  if r.result = -1 then r.my_errno else 0

/-- AccessReportGroup: the per-syscall report builder.  The wrappers in
src only set its errno field (`SetErrno`) and hand it to `SendReport`;
the event type and paths are filled in by the (external) create_access
family when the group is built. -/
structure AccessReportGroup where
  eventType : EventType
  path : String
  secondPath : String := ""
  errnoVal : Int := 0
deriving DecidableEq, Repr

/-- AccessReportGroup::SetErrno (functional version). -/
def AccessReportGroup.SetErrno (g : AccessReportGroup) (e : Int) : AccessReportGroup :=
  { g with errnoVal := e }

/-- Modelled from the spec: the create_access family (declared in
bxl_observer.hpp, defined outside src) builds an access-report group
carrying the event type and the normalized path(s); the policy check it
returns is supplied separately as an input to each wrapper model. -/
def create_access_group (eventType : EventType) (path : String)
    (secondPath : String := "") : AccessReportGroup :=
  { eventType := eventType, path := path, secondPath := secondPath }

/-- Observable outcome of one intercepted-syscall wrapper invocation:
the value returned to the guest, the guest-visible errno after the
wrapper returns, whether the real libc call was made, and the report
groups handed to SendReport, in order. -/
structure WrapperOutcome (T : Type) where
  retVal : T
  finalErrno : Int
  realCallMade : Bool
  reportsSent : List AccessReportGroup
deriving DecidableEq, Repr

/-- The check_fwd_and_report_##name template of bxl_observer.hpp:
if should_deny, the result is result_t(error_val, EPERM) and the real
call is skipped; otherwise the real call is forwarded and its result and
post-call errno are captured.  The report errno is set to the captured
errno when the result equals error_val and to 0 otherwise; the report is
sent; restore() returns the result with errno reset to the captured
value.  Inputs realRes / realPostErrno describe the real call: its
return value and the value errno holds right after it returns. -/
def check_fwd_and_report {T : Type} [DecidableEq T]
    (s : SandboxState) (report : AccessReportGroup) (check : AccessCheckResult)
    (error_val : T) (realRes : T) (realPostErrno : Int) : WrapperOutcome T :=
  let rv : result_t T :=
    if should_deny s check then { my_errno := EPERM, result := error_val }
    else { my_errno := realPostErrno, result := realRes }
  let reportErrno : Int := if rv.result = error_val then rv.my_errno else 0
  { retVal := rv.result
    finalErrno := rv.my_errno
    realCallMade := !(should_deny s check)
    reportsSent := [report.SetErrno reportErrno] }

/-- The fwd_and_report_##name template of bxl_observer.hpp: always
forward, then set the report errno to the captured errno when the result
equals error_val and to 0 otherwise, and send the report.  (In the C++
source the caller restores; finalErrno here is the errno after that
restore.) -/
def fwd_and_report {T : Type} [DecidableEq T]
    (report : AccessReportGroup) (error_val : T) (realRes : T)
    (realPostErrno : Int) : WrapperOutcome T :=
  let rv : result_t T := { my_errno := realPostErrno, result := realRes }
  let reportErrno : Int := if rv.result = error_val then rv.my_errno else 0
  { retVal := rv.result
    finalErrno := rv.my_errno
    realCallMade := true
    reportsSent := [report.SetErrno reportErrno] }

/-- Guest-errno thread across the fwd_##name template: the guest enters
the wrapper with errno = preErrno; the real call returns realRes and
either sets errno (realErrnoUpdate = some e) or leaves it unchanged
(none, permitted on success); result_t's constructor captures errno
right after the real call; restore() returns the result and resets errno
to the captured value, undoing any errno changes made by the sandbox's
own reporting and logging work in between. -/
def guest_errno_after_fwd {T : Type} (preErrno : Int) (realRes : T)
    (realErrnoUpdate : Option Int) : T × Int :=
  let errnoAfterReal : Int := realErrnoUpdate.getD preErrno
  let rv : result_t T := { my_errno := errnoAfterReal, result := realRes }
  rv.restore

/-- The CreateFileOpen helper of detours.cpp, restricted to the event
kind it computes: CREATE if the path does not exist (lstat mode 0) and
O_CREAT or O_TRUNC is set; WRITE if the path exists and O_CREAT or
O_TRUNC is set together with a write access mode; otherwise OPEN.
pathMode is the result of BxlObserver::get_mode on the normalized path
(0 when the path does not exist). -/
def CreateFileOpenEventType (pathMode : Nat) (oflag : Nat) : EventType :=
  let pathExists : Bool := pathMode != 0
  let isCreate : Bool := (!pathExists) && (oflag &&& (O_CREAT ||| O_TRUNC) != 0)
  let hasWriteAccess : Bool :=
    ((oflag &&& O_ACCMODE) == O_WRONLY) || ((oflag &&& O_ACCMODE) == O_RDWR)
  let isWrite : Bool := pathExists && ((oflag &&& (O_CREAT ||| O_TRUNC) != 0) && hasWriteAccess)
  if isCreate then EventType.NOTIFY_CREATE
  else if isWrite then EventType.NOTIFY_WRITE
  else EventType.NOTIFY_OPEN

/-- Event kind computed by the open wrapper (open/open64): it passes its
oflag argument straight to CreateFileOpen. -/
def open_eventType (pathMode oflag : Nat) : EventType :=
  CreateFileOpenEventType pathMode oflag

/-- Event kind computed by the openat wrapper (openat/openat64). -/
def openat_eventType (pathMode oflag : Nat) : EventType :=
  CreateFileOpenEventType pathMode oflag

/-- Event kind computed by the creat wrapper: creat forwards to
open(pathname, O_CREAT | O_WRONLY | O_TRUNC, mode). -/
def creat_eventType (pathMode : Nat) : EventType :=
  CreateFileOpenEventType pathMode (O_CREAT ||| O_WRONLY ||| O_TRUNC)

/-- Event kind computed by the name_to_handle_at wrapper: it passes
oflags = 0 when AT_SYMLINK_FOLLOW is set and O_NOFOLLOW otherwise. -/
def name_to_handle_at_eventType (pathMode flags : Nat) : EventType :=
  CreateFileOpenEventType pathMode
    (if flags &&& AT_SYMLINK_FOLLOW != 0 then 0 else O_NOFOLLOW)

/-- One entry produced by EnumerateDirectory inside the renameat wrapper,
together with the data the loop body consumes for it: the enumerated
source path, the policy checks returned by create_access for the source
unlink event and by CreateFileOpen for the destination, and the
destination path's get_mode result (0 when it does not exist). -/
structure RenameEntry where
  sourcePath : String
  sourceCheck : AccessCheckResult
  destCheck : AccessCheckResult
  destPathMode : Nat
deriving DecidableEq, Repr

/-- Destination path for an enumerated entry:
fileOrDirectory.replace(0, oldStr.length(), newStr). -/
def destPathOf (oldStr newStr : String) (e : RenameEntry) : String :=
  newStr ++ e.sourcePath.drop oldStr.length

/-- Report groups built by one iteration of the renameat loop: the
source-unlink group, then the destination group whose event kind comes
from CreateFileOpen with flags O_CREAT | O_WRONLY. -/
def renameat_entry_reports (oldStr newStr : String) (e : RenameEntry) :
    List AccessReportGroup :=
  [ create_access_group EventType.NOTIFY_UNLINK e.sourcePath,
    create_access_group (CreateFileOpenEventType e.destPathMode (O_CREAT ||| O_WRONLY))
      (destPathOf oldStr newStr e) ]

/-- Combined check of one renameat loop iteration: the loop overwrites
check with the source check, then combines it with the destination
check. -/
def renameat_entry_check (e : RenameEntry) : AccessCheckResult :=
  AccessCheckResult.Combine e.sourceCheck e.destCheck

/-- The renameat enumeration loop of detours.cpp: for each entry it
appends the source and destination report groups to accessesToReport,
computes the entry's combined check, and breaks out as soon as
should_deny holds for it.  Returns the accumulated groups and the check
variable's final value. -/
def renameat_process_entries (s : SandboxState) (oldStr newStr : String) :
    List RenameEntry → AccessCheckResult → List AccessReportGroup →
    List AccessReportGroup × AccessCheckResult
  | [], check, acc => (acc, check)
  | e :: rest, _, acc =>
    let check2 := renameat_entry_check e
    let acc2 := acc ++ renameat_entry_reports oldStr newStr e
    if should_deny s check2 then (acc2, check2)
    else renameat_process_entries s oldStr newStr rest check2 acc2

/-- Inputs to the renameat wrapper model.  oldStr/newStr are the
normalized top-level paths; sourceIsDir is S_ISDIR(get_mode(oldStr));
enumOk is the EnumerateDirectory result with entries its output;
invalidCheck stands for AccessCheckResult::Invalid() (the check
variable's initial value); topCheck is the check returned for the
fallback RENAME event; the nonDir fields feed the non-directory branch;
realRes/realErrno describe the real renameat call (return value and
errno right after it). -/
structure RenameatArgs where
  s : SandboxState
  oldStr : String
  newStr : String
  sourceIsDir : Bool
  enumOk : Bool
  entries : List RenameEntry
  invalidCheck : AccessCheckResult
  topCheck : AccessCheckResult
  nonDirSourceCheck : AccessCheckResult
  nonDirDestCheck : AccessCheckResult
  nonDirDestMode : Nat
  realRes : Int
  realErrno : Int
deriving Repr

/-- Outcome of the renameat wrapper. -/
structure RenameOutcome where
  retVal : Int
  finalErrno : Int
  realCallMade : Bool
  reportsSent : List AccessReportGroup
deriving DecidableEq, Repr

/-- The renameat wrapper of detours.cpp.  Directory sources with a
successful enumeration run the per-entry loop; failed enumeration falls
back to a single RENAME group over the top-level paths; non-directory
sources build one source-unlink and one destination group.  If the final
check should be denied the real call is skipped, result stays
result_t(-1, EPERM) and only accessesToReport.back() is sent; otherwise
the real renameat is forwarded once and every buffered group is sent
with get_errno_from_result of the real result.  (rename forwards here
with AT_FDCWD for both descriptors.) -/
def renameat_model (a : RenameatArgs) : RenameOutcome :=
  let built : List AccessReportGroup × AccessCheckResult :=
    if a.sourceIsDir then
      if a.enumOk then
        renameat_process_entries a.s a.oldStr a.newStr a.entries a.invalidCheck []
      else
        ([create_access_group EventType.NOTIFY_RENAME a.oldStr a.newStr], a.topCheck)
    else
      ([ create_access_group EventType.NOTIFY_UNLINK a.oldStr,
         create_access_group
           (CreateFileOpenEventType a.nonDirDestMode (O_CREAT ||| O_WRONLY)) a.newStr ],
       AccessCheckResult.Combine a.nonDirSourceCheck a.nonDirDestCheck)
  if should_deny a.s built.2 then
    { retVal := -1
      finalErrno := EPERM
      realCallMade := false
      reportsSent :=
        match built.1.getLast? with
        | some g => [g]
        | none => [] }
  else
    { retVal := a.realRes
      finalErrno := a.realErrno
      realCallMade := true
      reportsSent := built.1.map (fun g =>
        g.SetErrno (get_errno_from_result { my_errno := a.realErrno, result := a.realRes })) }

/-- Observable side effects of the fork/clone wrappers, in program
order. -/
inductive SandboxEffect where
  | callRealSyscall (name : String)
  | resetFdTable
  | sendReport (eventType : EventType)
deriving DecidableEq, Repr

/-- Event type of a report effect, if the effect is a report. -/
def SandboxEffect.reportEvent : SandboxEffect → Option EventType
  | SandboxEffect.sendReport e => some e
  | _ => none

/-- The fork wrapper of detours.cpp: forward the real fork first; when
the forwarded result is 0 (the child) clear the file-descriptor table
and then report the process creation (a FORK event) from the child;
finally return childPid.restore().  realChildPid/realPostErrno describe
the real fork call. -/
def fork_model (realChildPid : Int) (realPostErrno : Int) :
    List SandboxEffect × result_t Int :=
  let rv : result_t Int := { my_errno := realPostErrno, result := realChildPid }
  let effects :=
    [SandboxEffect.callRealSyscall "fork"] ++
      (if rv.result = 0 then
        [SandboxEffect.resetFdTable, SandboxEffect.sendReport EventType.NOTIFY_FORK]
      else [])
  (effects, rv)

/-- The clone wrapper of detours.cpp: identical structure to fork (the
variadic arguments are unpacked and passed through to the real clone). -/
def clone_model (realRes : Int) (realPostErrno : Int) :
    List SandboxEffect × result_t Int :=
  let rv : result_t Int := { my_errno := realPostErrno, result := realRes }
  let effects :=
    [SandboxEffect.callRealSyscall "clone"] ++
      (if rv.result = 0 then
        [SandboxEffect.resetFdTable, SandboxEffect.sendReport EventType.NOTIFY_FORK]
      else [])
  (effects, rv)

/-- Which environment vector an exec wrapper starts from. -/
inductive EnvSource where
  | callerEnvp
  | processEnviron
deriving DecidableEq, Repr

/-- Symbolic description of the environment handed to a forwarded exec:
its source vector and the processing applied to it.  ensureEnvs
(external; per the spec it guarantees LD_PRELOAD contains the sandbox
library) is tracked by the ensured flag; RemoveLDPreloadFromEnv by
preloadRemoved. -/
structure ExecEnv where
  source : EnvSource
  ensured : Bool
  preloadRemoved : Bool
deriving DecidableEq, Repr

/-- Forwarding decision of an exec wrapper. -/
inductive ExecForward where
  | libcCall (callee : String) (env : ExecEnv)
  | ptraceHandoff (env : ExecEnv)
  | noForward
deriving DecidableEq, Repr

/-- BxlObserver::ensureEnvs applied to an environment expression. -/
def ensureEnvs (e : ExecEnv) : ExecEnv :=
  { e with ensured := true }

/-- The handle_exec_with_ptrace helper of detours.cpp: strips the
sandbox library from LD_PRELOAD of the environment it was given and
hands off to the ptrace driver. -/
def handle_exec_with_ptrace (e : ExecEnv) : ExecForward :=
  ExecForward.ptraceHandoff { e with preloadRemoved := true }

/-- Caller-supplied envp, unprocessed. -/
def rawCallerEnvp : ExecEnv :=
  { source := EnvSource.callerEnvp, ensured := false, preloadRemoved := false }

/-- The process environment (environ), unprocessed. -/
def rawEnviron : ExecEnv :=
  { source := EnvSource.processEnviron, ensured := false, preloadRemoved := false }

/-- The fexecve wrapper: ptrace handoff for statically linked targets,
else forward fexecve with ensureEnvs(envp). -/
def fexecve_model (isStatic : Bool) : ExecForward :=
  if isStatic then handle_exec_with_ptrace (ensureEnvs rawCallerEnvp)
  else ExecForward.libcCall "fexecve" (ensureEnvs rawCallerEnvp)

/-- The execv wrapper: forwards execve with ensureEnvs(environ). -/
def execv_model (isStatic : Bool) : ExecForward :=
  if isStatic then handle_exec_with_ptrace (ensureEnvs rawEnviron)
  else ExecForward.libcCall "execve" (ensureEnvs rawEnviron)

/-- The execve wrapper: forwards execve with ensureEnvs(envp). -/
def execve_model (isStatic : Bool) : ExecForward :=
  if isStatic then handle_exec_with_ptrace (ensureEnvs rawCallerEnvp)
  else ExecForward.libcCall "execve" (ensureEnvs rawCallerEnvp)

/-- The execvp wrapper: when user-space PATH resolution succeeds,
forward execve on the resolved path with ensureEnvs(environ) (or the
ptrace handoff); when it fails, forward execvpe with
ensureEnvs(environ). -/
def execvp_model (resolved isStatic : Bool) : ExecForward :=
  if resolved then
    if isStatic then handle_exec_with_ptrace (ensureEnvs rawEnviron)
    else ExecForward.libcCall "execve" (ensureEnvs rawEnviron)
  else ExecForward.libcCall "execvpe" (ensureEnvs rawEnviron)

/-- The execvpe wrapper: both branches forward with ensureEnvs(envp). -/
def execvpe_model (resolved isStatic : Bool) : ExecForward :=
  if resolved then
    if isStatic then handle_exec_with_ptrace (ensureEnvs rawCallerEnvp)
    else ExecForward.libcCall "execve" (ensureEnvs rawCallerEnvp)
  else ExecForward.libcCall "execve" (ensureEnvs rawCallerEnvp)

/-- The execl wrapper: returns -1 without forwarding when the variadic
argument list cannot be materialized; otherwise forwards execve with
ensureEnvs(environ). -/
def execl_model (argcOk isStatic : Bool) : ExecForward :=
  if !argcOk then ExecForward.noForward
  else if isStatic then handle_exec_with_ptrace (ensureEnvs rawEnviron)
  else ExecForward.libcCall "execve" (ensureEnvs rawEnviron)

/-- The execlp wrapper: like execl with user-space PATH resolution; when
resolution succeeds it forwards execve with ensureEnvs(environ), but
when resolution fails it forwards fwd_execvp(file, argv), which uses the
current process environment with no ensureEnvs processing. -/
def execlp_model (argcOk resolved isStatic : Bool) : ExecForward :=
  if !argcOk then ExecForward.noForward
  else if resolved then
    if isStatic then handle_exec_with_ptrace (ensureEnvs rawEnviron)
    else ExecForward.libcCall "execve" (ensureEnvs rawEnviron)
  else ExecForward.libcCall "execvp" rawEnviron

/-- The execle wrapper: forwards execve with ensureEnvs(envp) taken from
the variadic tail. -/
def execle_model (argcOk isStatic : Bool) : ExecForward :=
  if !argcOk then ExecForward.noForward
  else if isStatic then handle_exec_with_ptrace (ensureEnvs rawCallerEnvp)
  else ExecForward.libcCall "execve" (ensureEnvs rawCallerEnvp)

/-- Environment expression actually handed to the forwarded call, when
one is made. -/
def ExecForward.forwardedEnv : ExecForward → Option ExecEnv
  | ExecForward.libcCall _ e => some e
  | ExecForward.ptraceHandoff e => some e
  | ExecForward.noForward => none

/-- Real-call handle as produced by GEN_FN_DEF_REAL in interposing mode:
dlsym(RTLD_NEXT, name) may fail, leaving a null handle, modelled as
none.  The handle's behavior maps an (abstracted) argument to the call's
result and the errno right after it. -/
def fwd_with_handle {T : Type} (handle : Option (Int → T × Int)) (arg : Int) :
    Option (result_t T) :=
  match handle with
  | none => none
  | some f => some { my_errno := (f arg).2, result := (f arg).1 }

/-- check_fwd_and_report_##name with the real-call handle made explicit:
the deny branch never touches the handle; the forward branch invokes it
through fwd_##name, which calls real_##name unconditionally — with a
null handle the invocation has no defined result (modelled none: no
return value, no report). -/
def check_fwd_and_report_with_handle {T : Type} [DecidableEq T]
    (s : SandboxState) (report : AccessReportGroup) (check : AccessCheckResult)
    (error_val : T) (handle : Option (Int → T × Int)) (arg : Int) :
    Option (WrapperOutcome T) :=
  if should_deny s check then
    some { retVal := error_val
           finalErrno := EPERM
           realCallMade := false
           reportsSent := [report.SetErrno EPERM] }
  else
    match fwd_with_handle handle arg with
    | none => none
    | some rv =>
      some { retVal := rv.result
             finalErrno := rv.my_errno
             realCallMade := true
             reportsSent :=
               [report.SetErrno (if rv.result = error_val then rv.my_errno else 0)] }

/-- The unlink wrapper of detours.cpp.  A non-null empty path
(path && *path == 0, modelled some "") is forwarded through fwd_unlink
and restored with no access check and no report; every other path goes
through create_access + check_fwd_and_report with the UNLINK event.  The
first component records whether an access check was performed. -/
def unlink_model (s : SandboxState) (path : Option String)
    (check : AccessCheckResult) (realRes realPostErrno : Int) :
    Bool × WrapperOutcome Int :=
  if path = some "" then
    (false, { retVal := realRes
              finalErrno := realPostErrno
              realCallMade := true
              reportsSent := [] })
  else
    (true, check_fwd_and_report s
      (create_access_group EventType.NOTIFY_UNLINK (path.getD ""))
      check (-1) realRes realPostErrno)

/-- The unlinkat wrapper of detours.cpp: the empty-path short-circuit
additionally requires dirfd == AT_FDCWD. -/
def unlinkat_model (s : SandboxState) (dirfd : Int) (path : Option String)
    (check : AccessCheckResult) (realRes realPostErrno : Int) :
    Bool × WrapperOutcome Int :=
  if dirfd = AT_FDCWD ∧ path = some "" then
    (false, { retVal := realRes
              finalErrno := realPostErrno
              realCallMade := true
              reportsSent := [] })
  else
    (true, check_fwd_and_report s
      (create_access_group EventType.NOTIFY_UNLINK (path.getD ""))
      check (-1) realRes realPostErrno)

/-- Outcome of a printf-family wrapper, additionally recording which
access checks were built (event type, target descriptor) via
create_access_fd. -/
structure PrintfOutcome where
  retVal : Int
  finalErrno : Int
  realCallMade : Bool
  checksBuilt : List (EventType × Int)
  reportsSent : List AccessReportGroup
deriving DecidableEq, Repr

/-- The vfprintf wrapper of detours.cpp: builds a WRITE access check for
fileno(f), discards the returned check, unconditionally forwards the
real vfprintf and restores; no report is ever sent. -/
def vfprintf_model (s : SandboxState) (streamFd : Int)
    (check : AccessCheckResult) (realRes realPostErrno : Int) : PrintfOutcome :=
  { retVal := realRes
    finalErrno := realPostErrno
    realCallMade := true
    checksBuilt := [(EventType.NOTIFY_WRITE, streamFd)]
    reportsSent := [] }

/-- The vprintf wrapper of detours.cpp: same as vfprintf with the
descriptor hard-coded to 1 (stdout). -/
def vprintf_model (s : SandboxState) (check : AccessCheckResult)
    (realRes realPostErrno : Int) : PrintfOutcome :=
  vfprintf_model s 1 check realRes realPostErrno

/-- The printf wrapper of detours.cpp: materializes the variadic
arguments and calls the interposed vprintf, then restores again. -/
def printf_model (s : SandboxState) (check : AccessCheckResult)
    (realRes realPostErrno : Int) : PrintfOutcome :=
  vprintf_model s check realRes realPostErrno

/-- The fprintf wrapper of detours.cpp: materializes the variadic
arguments and calls the interposed vfprintf, then restores again. -/
def fprintf_model (s : SandboxState) (streamFd : Int)
    (check : AccessCheckResult) (realRes realPostErrno : Int) : PrintfOutcome :=
  vfprintf_model s streamFd check realRes realPostErrno

/-- Concrete sandbox state: valid, breakaway disallowed, root process,
fail-unexpected-accesses set; the sandbox is enabled. -/
def sEnabledFail : SandboxState :=
  { isValid := true, allowChildProcessesToBreakAway := false,
    pidNotRoot := false, failUnexpectedAccesses := true }

/-- Concrete sandbox state: valid and failing unexpected accesses, but a
child process with breakaway allowed; IsEnabled is false. -/
def sBreakawayChild : SandboxState :=
  { isValid := true, allowChildProcessesToBreakAway := true,
    pidNotRoot := true, failUnexpectedAccesses := true }

/-- Concrete denying policy check. -/
def denyCheck : AccessCheckResult := { shouldDenyAccess := true }

/-- Concrete allowing policy check. -/
def allowCheck : AccessCheckResult := { shouldDenyAccess := false }

/-- Concrete write report group. -/
def gWrite : AccessReportGroup :=
  { eventType := EventType.NOTIFY_WRITE, path := "/etc/passwd" }

/-- Concrete rename entry whose destination already exists
(destPathMode 1): the destination report is classified WRITE. -/
def c4entry : RenameEntry :=
  { sourcePath := "/d1/a", sourceCheck := allowCheck,
    destCheck := allowCheck, destPathMode := 1 }

/-- Concrete renameat inputs: directory source, successful enumeration of
one entry whose destination exists, every check allowing, real call
succeeding. -/
def c4args : RenameatArgs :=
  { s := sEnabledFail, oldStr := "/d1", newStr := "/d2",
    sourceIsDir := true, enumOk := true, entries := [c4entry],
    invalidCheck := allowCheck, topCheck := allowCheck,
    nonDirSourceCheck := allowCheck, nonDirDestCheck := allowCheck,
    nonDirDestMode := 0, realRes := 0, realErrno := 0 }

/- ======================= theorems ======================= -/

/-- Normal form of the CreateFileOpen event-kind computation with the
boolean conditions lifted to propositions. -/
theorem CreateFileOpenEventType_eq (pathMode oflag : Nat) :
    CreateFileOpenEventType pathMode oflag =
      if pathMode = 0 then
        (if oflag &&& (O_CREAT ||| O_TRUNC) ≠ 0 then EventType.NOTIFY_CREATE
         else EventType.NOTIFY_OPEN)
      else
        (if oflag &&& (O_CREAT ||| O_TRUNC) ≠ 0 ∧
            (oflag &&& O_ACCMODE = O_WRONLY ∨ oflag &&& O_ACCMODE = O_RDWR)
         then EventType.NOTIFY_WRITE else EventType.NOTIFY_OPEN) := by
  unfold CreateFileOpenEventType
  by_cases hp : pathMode = 0 <;> by_cases hc : oflag &&& (O_CREAT ||| O_TRUNC) = 0 <;>
    by_cases h1 : oflag &&& O_ACCMODE = O_WRONLY <;>
    by_cases h2 : oflag &&& O_ACCMODE = O_RDWR <;>
    simp [hp, hc, h1, h2]

/-- C1 (amended): for every wrapper on the check-forward-and-report path,
if the access check says the access should be denied, the
fail-unexpected-accesses policy flag is set, and the sandbox is enabled
(IsEnabled: successfully initialized and not a broken-away child), then
the real call is skipped, the report is sent with errno EPERM, and the
wrapper returns its configured error value with the guest-visible errno
equal to EPERM. -/
theorem C1_denied_access_skips_real_call {T : Type} [DecidableEq T]
    (s : SandboxState) (g : AccessReportGroup) (check : AccessCheckResult)
    (error_val realRes : T) (realPostErrno : Int)
    (hDeny : check.shouldDenyAccess = true)
    (hFail : s.failUnexpectedAccesses = true)
    (hEnabled : IsEnabled s = true) :
    check_fwd_and_report s g check error_val realRes realPostErrno =
      { retVal := error_val, finalErrno := EPERM, realCallMade := false,
        reportsSent := [g.SetErrno EPERM] } := by
  have hsd : should_deny s check = true := by
    simp [should_deny, IsFailingUnexpectedAccesses, hDeny, hFail, hEnabled]
  simp [check_fwd_and_report, hsd]

/-- Witness for C1: concrete denied write with the sandbox enabled. -/
theorem C1_denied_access_witness :
    denyCheck.shouldDenyAccess = true ∧
    sEnabledFail.failUnexpectedAccesses = true ∧
    IsEnabled sEnabledFail = true ∧
    check_fwd_and_report sEnabledFail gWrite denyCheck (-1 : Int) 0 7 =
      { retVal := -1, finalErrno := EPERM, realCallMade := false,
        reportsSent := [gWrite.SetErrno EPERM] } :=
  ⟨rfl, rfl, rfl,
    C1_denied_access_skips_real_call sEnabledFail gWrite denyCheck (-1) 0 7 rfl rfl rfl⟩

/-- Counterexample to C1 as stated: with a denying check and the
fail-unexpected-accesses flag set but the sandbox not enabled (a child
process allowed to break away), the real call is still made, the real
result is returned, and errno is not EPERM. -/
theorem C1_counterexample :
    denyCheck.shouldDenyAccess = true ∧
    sBreakawayChild.failUnexpectedAccesses = true ∧
    (check_fwd_and_report sBreakawayChild gWrite denyCheck (-1 : Int) 0 7).realCallMade = true ∧
    (check_fwd_and_report sBreakawayChild gWrite denyCheck (-1 : Int) 0 7).retVal ≠ -1 ∧
    (check_fwd_and_report sBreakawayChild gWrite denyCheck (-1 : Int) 0 7).finalErrno ≠ EPERM := by
  decide

/-- C2: for every call that is forwarded to the real implementation and
reported (check_fwd_and_report with a non-denying check, and
fwd_and_report), the report errno equals the real call's errno when the
real call failed (returned the error sentinel) and 0 when it succeeded,
regardless of the errno value the guest held before the call (the
post-call errno of a successful call — which may be the unchanged
pre-call value — never reaches the report).  The detours.cpp helper
get_errno_from_result obeys the same discipline. -/
theorem C2_report_errno {T : Type} [DecidableEq T]
    (s : SandboxState) (g : AccessReportGroup) (check : AccessCheckResult)
    (error_val realRes : T) (realFailErrno preErrno : Int)
    (hFwd : should_deny s check = false) :
    (realRes = error_val →
      (check_fwd_and_report s g check error_val realRes realFailErrno).reportsSent
          = [g.SetErrno realFailErrno] ∧
      (fwd_and_report g error_val realRes realFailErrno).reportsSent
          = [g.SetErrno realFailErrno]) ∧
    (realRes ≠ error_val →
      (check_fwd_and_report s g check error_val realRes preErrno).reportsSent
          = [g.SetErrno 0] ∧
      (fwd_and_report g error_val realRes preErrno).reportsSent = [g.SetErrno 0]) ∧
    get_errno_from_result { my_errno := realFailErrno, result := (-1 : Int) } = realFailErrno ∧
    (∀ r : Int, r ≠ -1 →
      get_errno_from_result { my_errno := preErrno, result := r } = 0) := by
  refine ⟨?_, ?_, ?_, ?_⟩
  · intro h
    constructor <;> simp [check_fwd_and_report, fwd_and_report, hFwd, h]
  · intro h
    constructor <;> simp [check_fwd_and_report, fwd_and_report, hFwd, h]
  · simp [get_errno_from_result]
  · intro r hr
    simp [get_errno_from_result, hr]

/-- Witness for C2: concrete failing real call (result -1, errno 13)
reported with errno 13. -/
theorem C2_report_errno_witness :
    should_deny sEnabledFail allowCheck = false ∧
    (-1 : Int) = -1 ∧
    (check_fwd_and_report sEnabledFail gWrite allowCheck (-1 : Int) (-1) 13).reportsSent
      = [gWrite.SetErrno 13] :=
  ⟨rfl, rfl,
    ((C2_report_errno sEnabledFail gWrite allowCheck (-1) (-1) 13 5 rfl).1 rfl).1⟩

/-- C3: for open, openat, creat and name_to_handle_at, the event kind is
CREATE exactly when the path does not exist and O_CREAT or O_TRUNC is
set, WRITE exactly when the path exists and O_CREAT or O_TRUNC is set
together with a write access mode (O_WRONLY or O_RDWR), and OPEN
otherwise; creat feeds flags O_CREAT|O_WRONLY|O_TRUNC into the same
classification, and name_to_handle_at's computed flags (0 or O_NOFOLLOW)
always classify as OPEN. -/
theorem C3_open_event_classification (pathMode oflag : Nat) :
    (CreateFileOpenEventType pathMode oflag = EventType.NOTIFY_CREATE ↔
      pathMode = 0 ∧ oflag &&& (O_CREAT ||| O_TRUNC) ≠ 0) ∧
    (CreateFileOpenEventType pathMode oflag = EventType.NOTIFY_WRITE ↔
      pathMode ≠ 0 ∧ oflag &&& (O_CREAT ||| O_TRUNC) ≠ 0 ∧
        (oflag &&& O_ACCMODE = O_WRONLY ∨ oflag &&& O_ACCMODE = O_RDWR)) ∧
    (CreateFileOpenEventType pathMode oflag = EventType.NOTIFY_OPEN ↔
      ¬(pathMode = 0 ∧ oflag &&& (O_CREAT ||| O_TRUNC) ≠ 0) ∧
      ¬(pathMode ≠ 0 ∧ oflag &&& (O_CREAT ||| O_TRUNC) ≠ 0 ∧
        (oflag &&& O_ACCMODE = O_WRONLY ∨ oflag &&& O_ACCMODE = O_RDWR))) ∧
    open_eventType pathMode oflag = CreateFileOpenEventType pathMode oflag ∧
    openat_eventType pathMode oflag = CreateFileOpenEventType pathMode oflag ∧
    creat_eventType pathMode =
      (if pathMode = 0 then EventType.NOTIFY_CREATE else EventType.NOTIFY_WRITE) ∧
    (∀ flags : Nat, name_to_handle_at_eventType pathMode flags = EventType.NOTIFY_OPEN) := by
  refine ⟨?_, ?_, ?_, rfl, rfl, ?_, ?_⟩
  · rw [CreateFileOpenEventType_eq]
    by_cases hp : pathMode = 0 <;> by_cases hc : oflag &&& (O_CREAT ||| O_TRUNC) = 0 <;>
      by_cases hw : oflag &&& O_ACCMODE = O_WRONLY ∨ oflag &&& O_ACCMODE = O_RDWR <;>
      simp [hp, hc, hw]
  · rw [CreateFileOpenEventType_eq]
    by_cases hp : pathMode = 0 <;> by_cases hc : oflag &&& (O_CREAT ||| O_TRUNC) = 0 <;>
      by_cases hw : oflag &&& O_ACCMODE = O_WRONLY ∨ oflag &&& O_ACCMODE = O_RDWR <;>
      simp [hp, hc, hw]
  · rw [CreateFileOpenEventType_eq]
    by_cases hp : pathMode = 0 <;> by_cases hc : oflag &&& (O_CREAT ||| O_TRUNC) = 0 <;>
      by_cases hw : oflag &&& O_ACCMODE = O_WRONLY ∨ oflag &&& O_ACCMODE = O_RDWR <;>
      simp [hp, hc, hw]
  · unfold creat_eventType
    rw [CreateFileOpenEventType_eq]
    by_cases hp : pathMode = 0 <;> simp [hp] <;> decide
  · intro flags
    unfold name_to_handle_at_eventType
    by_cases hf : flags &&& AT_SYMLINK_FOLLOW != 0 <;>
      rw [CreateFileOpenEventType_eq] <;>
      by_cases hp : pathMode = 0 <;> simp [hf, hp] <;> decide

/-- Report groups accumulated by the renameat loop when no entry's
combined check is denied: one source-unlink and one destination group
per entry, in enumeration order. -/
theorem renameat_process_entries_fst (s : SandboxState) (oldStr newStr : String)
    (l : List RenameEntry) (c0 : AccessCheckResult) (acc : List AccessReportGroup)
    (h : ∀ e ∈ l, should_deny s (renameat_entry_check e) = false) :
    (renameat_process_entries s oldStr newStr l c0 acc).1 =
      acc ++ l.flatMap (renameat_entry_reports oldStr newStr) := by
  induction l generalizing c0 acc with
  | nil => simp [renameat_process_entries]
  | cons e rest ih =>
    have he : should_deny s (renameat_entry_check e) = false :=
      h e (List.mem_cons_self e rest)
    have hrest : ∀ x ∈ rest, should_deny s (renameat_entry_check x) = false :=
      fun x hx => h x (List.mem_cons_of_mem e hx)
    simp only [renameat_process_entries, he, Bool.false_eq_true, if_false]
    rw [ih (renameat_entry_check e) (acc ++ renameat_entry_reports oldStr newStr e) hrest]
    simp [List.append_assoc]

/-- The check variable left by the renameat loop never denies when no
entry denies and its initial value does not deny. -/
theorem renameat_process_entries_snd (s : SandboxState) (oldStr newStr : String)
    (l : List RenameEntry) (c0 : AccessCheckResult) (acc : List AccessReportGroup)
    (h : ∀ e ∈ l, should_deny s (renameat_entry_check e) = false)
    (h0 : should_deny s c0 = false) :
    should_deny s (renameat_process_entries s oldStr newStr l c0 acc).2 = false := by
  induction l generalizing c0 acc with
  | nil => simpa [renameat_process_entries] using h0
  | cons e rest ih =>
    have he : should_deny s (renameat_entry_check e) = false :=
      h e (List.mem_cons_self e rest)
    have hrest : ∀ x ∈ rest, should_deny s (renameat_entry_check x) = false :=
      fun x hx => h x (List.mem_cons_of_mem e hx)
    simp only [renameat_process_entries, he, Bool.false_eq_true, if_false]
    exact ih (renameat_entry_check e) (acc ++ renameat_entry_reports oldStr newStr e) hrest he

/-- The renameat loop stops at the first denying entry: the accumulated
groups end with that entry's pair and the final check is that entry's
combined check. -/
theorem renameat_process_entries_deny (s : SandboxState) (oldStr newStr : String)
    (d : RenameEntry) (post pre : List RenameEntry)
    (c0 : AccessCheckResult) (acc : List AccessReportGroup)
    (hpre : ∀ e ∈ pre, should_deny s (renameat_entry_check e) = false)
    (hd : should_deny s (renameat_entry_check d) = true) :
    renameat_process_entries s oldStr newStr (pre ++ d :: post) c0 acc =
      (acc ++ pre.flatMap (renameat_entry_reports oldStr newStr) ++
        renameat_entry_reports oldStr newStr d,
       renameat_entry_check d) := by
  induction pre generalizing c0 acc with
  | nil => simp [renameat_process_entries, hd]
  | cons e rest ih =>
    have he : should_deny s (renameat_entry_check e) = false :=
      hpre e (List.mem_cons_self e rest)
    have hrest : ∀ x ∈ rest, should_deny s (renameat_entry_check x) = false :=
      fun x hx => hpre x (List.mem_cons_of_mem e hx)
    simp only [List.cons_append, renameat_process_entries, he, Bool.false_eq_true, if_false,
      List.append_eq]
    rw [ih (renameat_entry_check e) (acc ++ renameat_entry_reports oldStr newStr e) hrest]
    simp [List.append_assoc]

/-- C4 (amended): for a renameat (or rename) of a directory whose
recursive enumeration succeeds, the wrapper builds an unlink report for
each enumerated source entry and a destination report for the
corresponding destination entry classified like an open with flags
O_CREAT|O_WRONLY (CREATE when the destination entry does not exist,
WRITE when it exists), combining the two checks of each entry; if any
entry's combined check is denied, the real renameat is not called and
exactly one report (the last one built, as the denial witness — the
denying entry's destination group, with its errno untouched) is sent;
otherwise the real renameat is forwarded exactly once and every buffered
report is sent with the real call's errno (the failing call's errno, 0
on success).  If enumeration fails, a single RENAME event with the
top-level source and destination paths is used instead, subject to the
same deny-or-forward handling. -/
theorem C4_renameat_directory (a : RenameatArgs) (hDir : a.sourceIsDir = true) :
    (a.enumOk = true →
      ((∀ e ∈ a.entries, should_deny a.s (renameat_entry_check e) = false) →
        should_deny a.s a.invalidCheck = false →
        renameat_model a =
          { retVal := a.realRes, finalErrno := a.realErrno, realCallMade := true,
            reportsSent :=
              (a.entries.flatMap (renameat_entry_reports a.oldStr a.newStr)).map
                (fun g => g.SetErrno (if a.realRes = -1 then a.realErrno else 0)) }) ∧
      (∀ pre d post, a.entries = pre ++ d :: post →
        (∀ e ∈ pre, should_deny a.s (renameat_entry_check e) = false) →
        should_deny a.s (renameat_entry_check d) = true →
        renameat_model a =
          { retVal := -1, finalErrno := EPERM, realCallMade := false,
            reportsSent :=
              [create_access_group
                (CreateFileOpenEventType d.destPathMode (O_CREAT ||| O_WRONLY))
                (destPathOf a.oldStr a.newStr d)] })) ∧
    (a.enumOk = false →
      (should_deny a.s a.topCheck = false →
        renameat_model a =
          { retVal := a.realRes, finalErrno := a.realErrno, realCallMade := true,
            reportsSent :=
              [(create_access_group EventType.NOTIFY_RENAME a.oldStr a.newStr).SetErrno
                (if a.realRes = -1 then a.realErrno else 0)] }) ∧
      (should_deny a.s a.topCheck = true →
        renameat_model a =
          { retVal := -1, finalErrno := EPERM, realCallMade := false,
            reportsSent :=
              [create_access_group EventType.NOTIFY_RENAME a.oldStr a.newStr] })) := by
  constructor
  · intro hEnum
    constructor
    · intro hAllow hInv
      have hfst := renameat_process_entries_fst a.s a.oldStr a.newStr a.entries
        a.invalidCheck [] hAllow
      have hsnd := renameat_process_entries_snd a.s a.oldStr a.newStr a.entries
        a.invalidCheck [] hAllow hInv
      unfold renameat_model
      rw [hDir, hEnum]
      simp only [if_true, hsnd, Bool.false_eq_true, if_false, hfst, List.nil_append]
      simp [get_errno_from_result]
    · intro pre d post hsplit hpre hd
      have hrun := renameat_process_entries_deny a.s a.oldStr a.newStr d post pre
        a.invalidCheck [] hpre hd
      unfold renameat_model
      rw [hDir, hEnum, hsplit]
      simp only [if_true, hrun, hd, if_true]
      have hlast :
          (([] ++ pre.flatMap (renameat_entry_reports a.oldStr a.newStr) ++
              renameat_entry_reports a.oldStr a.newStr d).getLast?) =
            some (create_access_group
              (CreateFileOpenEventType d.destPathMode (O_CREAT ||| O_WRONLY))
              (destPathOf a.oldStr a.newStr d)) := by
        rw [List.getLast?_append_of_ne_nil
          ([] ++ pre.flatMap (renameat_entry_reports a.oldStr a.newStr))
          (by simp [renameat_entry_reports])]
        rfl
      rw [hlast]
  · intro hEnum
    constructor
    · intro hTop
      unfold renameat_model
      rw [hDir, hEnum]
      simp only [if_true, Bool.false_eq_true, if_false, hTop]
      simp [get_errno_from_result]
    · intro hTop
      unfold renameat_model
      rw [hDir, hEnum]
      simp [hTop]

/-- Witness for C4: concrete allowed rename of a one-entry directory;
the real call is forwarded and both buffered reports are sent with
errno 0. -/
theorem C4_renameat_witness :
    c4args.sourceIsDir = true ∧ c4args.enumOk = true ∧
    (∀ e ∈ c4args.entries, should_deny c4args.s (renameat_entry_check e) = false) ∧
    should_deny c4args.s c4args.invalidCheck = false ∧
    renameat_model c4args =
      { retVal := c4args.realRes, finalErrno := c4args.realErrno, realCallMade := true,
        reportsSent :=
          (c4args.entries.flatMap (renameat_entry_reports c4args.oldStr c4args.newStr)).map
            (fun g => g.SetErrno (if c4args.realRes = -1 then c4args.realErrno else 0)) } :=
  ⟨rfl, rfl, by decide, rfl,
    ((C4_renameat_directory c4args rfl).1 rfl).1 (by decide) rfl⟩

/-- Counterexample to C4 as stated: with a single enumerated entry whose
destination path already exists, the destination report's event kind is
WRITE, not the CREATE the claim asserts (the enumeration succeeded and
every check allowed the access). -/
theorem C4_counterexample :
    c4args.sourceIsDir = true ∧ c4args.enumOk = true ∧
    (∀ e ∈ c4args.entries, should_deny c4args.s (renameat_entry_check e) = false) ∧
    (renameat_model c4args).reportsSent.map (fun g => g.eventType) =
      [EventType.NOTIFY_UNLINK, EventType.NOTIFY_WRITE] ∧
    EventType.NOTIFY_WRITE ≠ EventType.NOTIFY_CREATE := by
  decide

/-- C5: for the fork and clone wrappers the real call is forwarded first;
only when the forwarded call returned 0 (the child) the descriptor table
is cleared and then a FORK report is emitted, both before the wrapper
returns; so the only report emitted by the wrapper — the child's first
outbound report — is its creation record, and the wrapper returns the
real result with the real call's errno restored. -/
theorem C5_fork_clone_child_report (realRes realPostErrno : Int) :
    ((fork_model realRes realPostErrno).1.head? =
      some (SandboxEffect.callRealSyscall "fork")) ∧
    (realRes = 0 →
      (fork_model realRes realPostErrno).1 =
        [SandboxEffect.callRealSyscall "fork", SandboxEffect.resetFdTable,
         SandboxEffect.sendReport EventType.NOTIFY_FORK]) ∧
    (realRes ≠ 0 →
      (fork_model realRes realPostErrno).1 = [SandboxEffect.callRealSyscall "fork"]) ∧
    ((fork_model realRes realPostErrno).1.filterMap SandboxEffect.reportEvent =
      if realRes = 0 then [EventType.NOTIFY_FORK] else []) ∧
    ((fork_model realRes realPostErrno).2.restore = (realRes, realPostErrno)) ∧
    ((clone_model realRes realPostErrno).1.head? =
      some (SandboxEffect.callRealSyscall "clone")) ∧
    (realRes = 0 →
      (clone_model realRes realPostErrno).1 =
        [SandboxEffect.callRealSyscall "clone", SandboxEffect.resetFdTable,
         SandboxEffect.sendReport EventType.NOTIFY_FORK]) ∧
    (realRes ≠ 0 →
      (clone_model realRes realPostErrno).1 = [SandboxEffect.callRealSyscall "clone"]) ∧
    ((clone_model realRes realPostErrno).1.filterMap SandboxEffect.reportEvent =
      if realRes = 0 then [EventType.NOTIFY_FORK] else []) ∧
    ((clone_model realRes realPostErrno).2.restore = (realRes, realPostErrno)) := by
  by_cases h : realRes = 0 <;>
    simp [fork_model, clone_model, result_t.restore, SandboxEffect.reportEvent, h]

/-- Witness for C5: in the child (forwarded fork returned 0) the effects
are exactly forward, clear descriptor table, report FORK. -/
theorem C5_fork_clone_witness :
    (0 : Int) = 0 ∧
    (fork_model 0 5).1 =
      [SandboxEffect.callRealSyscall "fork", SandboxEffect.resetFdTable,
       SandboxEffect.sendReport EventType.NOTIFY_FORK] :=
  ⟨rfl, (C5_fork_clone_child_report 0 5).2.1 rfl⟩

/-- C6, evaluated at the failing input: when execlp's user-space PATH
resolution fails (argc ok, not static), the forwarded call is
fwd_execvp with the raw process environment, NOT processed by
ensureEnvs — whereas execvp in exactly the same situation forwards an
ensureEnvs-processed environment, and every other libc-forwarding
branch of the exec family passes an ensureEnvs-processed environment
(ptrace handoffs strip the preload from an ensured environment). -/
theorem C6_execlp_fallback_env :
    execlp_model true false false = ExecForward.libcCall "execvp" rawEnviron ∧
    rawEnviron.ensured = false ∧
    execvp_model false false = ExecForward.libcCall "execvpe" (ensureEnvs rawEnviron) ∧
    (ensureEnvs rawEnviron).ensured = true ∧
    (∀ st : Bool, (fexecve_model st).forwardedEnv.map ExecEnv.ensured = some true) ∧
    (∀ st : Bool, (execv_model st).forwardedEnv.map ExecEnv.ensured = some true) ∧
    (∀ st : Bool, (execve_model st).forwardedEnv.map ExecEnv.ensured = some true) ∧
    (∀ r st : Bool, (execvp_model r st).forwardedEnv.map ExecEnv.ensured = some true) ∧
    (∀ r st : Bool, (execvpe_model r st).forwardedEnv.map ExecEnv.ensured = some true) ∧
    (∀ st : Bool, (execl_model true st).forwardedEnv.map ExecEnv.ensured = some true) ∧
    (∀ st : Bool, (execle_model true st).forwardedEnv.map ExecEnv.ensured = some true) ∧
    (∀ st : Bool, (execlp_model true true st).forwardedEnv.map ExecEnv.ensured = some true) ∧
    (execlp_model true false false).forwardedEnv.map ExecEnv.ensured = some false := by
  decide

/-- Counterexample to C7 as stated: the real call succeeded (its result 0
is not the -1 sentinel) but set errno to 7 on the way (libc permits
touching errno on success); the wrapper returns with errno 7, not the
guest's pre-call value 5 — errno is not restored to its pre-call
value. -/
theorem C7_counterexample :
    (guest_errno_after_fwd 5 (0 : Int) (some 7)).1 ≠ (-1 : Int) ∧
    (guest_errno_after_fwd 5 (0 : Int) (some 7)).2 ≠ 5 := by
  decide

/-- C7 (amended): result_t captures errno immediately after the real call
and restore() resets errno to that captured value, so the wrapper's own
reporting work never perturbs the guest's errno: the guest observes
exactly the errno the real call left behind; in particular, when a
successful real call leaves errno untouched, the guest observes its
pre-call errno unchanged. -/
theorem C7_errno_restore {T : Type} (preErrno : Int) (realRes : T)
    (realErrnoUpdate : Option Int) :
    (guest_errno_after_fwd preErrno realRes realErrnoUpdate).1 = realRes ∧
    (guest_errno_after_fwd preErrno realRes realErrnoUpdate).2 =
      realErrnoUpdate.getD preErrno ∧
    (realErrnoUpdate = none →
      (guest_errno_after_fwd preErrno realRes realErrnoUpdate).2 = preErrno) := by
  refine ⟨rfl, rfl, ?_⟩
  intro h
  subst h
  rfl

/-- Witness for C7: a real call that leaves errno untouched lets the
guest observe its pre-call errno 5. -/
theorem C7_errno_restore_witness :
    (none : Option Int) = none ∧
    (guest_errno_after_fwd 5 (0 : Int) none).2 = 5 :=
  ⟨rfl, (C7_errno_restore 5 (0 : Int) none).2.2 rfl⟩

/-- C8 (amended): when a real-call handle could not be resolved (dlsym
returned null, modelled none) the wrapper does not short-circuit:
outside the deny branch, fwd_##name invokes the handle unconditionally,
so the invocation has no defined result — no -1 return, no ENOSYS, and
no report.  With a resolved handle the wrapper coincides with
check_fwd_and_report. -/
theorem C8_unresolved_handle {T : Type} [DecidableEq T]
    (s : SandboxState) (g : AccessReportGroup) (check : AccessCheckResult)
    (error_val : T) (arg : Int)
    (hFwd : should_deny s check = false) :
    fwd_with_handle (none : Option (Int → T × Int)) arg = none ∧
    check_fwd_and_report_with_handle s g check error_val
      (none : Option (Int → T × Int)) arg = none ∧
    (∀ f : Int → T × Int,
      check_fwd_and_report_with_handle s g check error_val (some f) arg =
        some (check_fwd_and_report s g check error_val (f arg).1 (f arg).2)) := by
  refine ⟨rfl, ?_, ?_⟩
  · simp [check_fwd_and_report_with_handle, hFwd, fwd_with_handle]
  · intro f
    simp [check_fwd_and_report_with_handle, fwd_with_handle, check_fwd_and_report, hFwd]

/-- Witness for C8: concrete unresolved handle with a non-denying check
produces no defined outcome. -/
theorem C8_unresolved_handle_witness :
    should_deny sEnabledFail allowCheck = false ∧
    check_fwd_and_report_with_handle sEnabledFail gWrite allowCheck (-1 : Int)
      (none : Option (Int → Int × Int)) 0 = none :=
  ⟨rfl, (C8_unresolved_handle sEnabledFail gWrite allowCheck (-1) 0 rfl).2.1⟩

/-- Counterexample to C8 as stated: with an unresolved handle the wrapper
does not produce the claimed short-circuit outcome (-1 return, errno
ENOSYS, report still emitted); the invocation has no defined result at
all. -/
theorem C8_counterexample :
    ¬ (check_fwd_and_report_with_handle sEnabledFail gWrite allowCheck (-1 : Int)
        (none : Option (Int → Int × Int)) 0 =
      some { retVal := -1, finalErrno := ENOSYS, realCallMade := false,
             reportsSent := [gWrite.SetErrno ENOSYS] }) := by
  decide

/-- C9: an unlink with a non-null empty path, and an unlinkat with dirfd
equal to AT_FDCWD and a non-null empty path, are forwarded to the real
implementation with no access check performed and no report emitted; the
real result is returned with the real call's errno. -/
theorem C9_empty_path_unlink (s : SandboxState) (check : AccessCheckResult)
    (realRes realPostErrno : Int) :
    unlink_model s (some "") check realRes realPostErrno =
      (false, { retVal := realRes, finalErrno := realPostErrno,
                realCallMade := true, reportsSent := [] }) ∧
    unlinkat_model s AT_FDCWD (some "") check realRes realPostErrno =
      (false, { retVal := realRes, finalErrno := realPostErrno,
                realCallMade := true, reportsSent := [] }) := by
  constructor
  · simp [unlink_model]
  · simp [unlinkat_model]

/-- C10: the printf-family wrappers build a WRITE access check for the
target stream's descriptor (descriptor 1 for vprintf/printf), discard
the check, and unconditionally forward the real call: for every sandbox
state and every policy check — including a denying check with the
fail-unexpected-accesses flag set — the real call is made, no report is
sent, and the real result and errno are returned to the guest. -/
theorem C10_printf_never_denied (s : SandboxState) (streamFd : Int)
    (check : AccessCheckResult) (realRes realPostErrno : Int) :
    vprintf_model s check realRes realPostErrno =
      { retVal := realRes, finalErrno := realPostErrno, realCallMade := true,
        checksBuilt := [(EventType.NOTIFY_WRITE, 1)], reportsSent := [] } ∧
    vfprintf_model s streamFd check realRes realPostErrno =
      { retVal := realRes, finalErrno := realPostErrno, realCallMade := true,
        checksBuilt := [(EventType.NOTIFY_WRITE, streamFd)], reportsSent := [] } ∧
    printf_model s check realRes realPostErrno =
      vprintf_model s check realRes realPostErrno ∧
    fprintf_model s streamFd check realRes realPostErrno =
      vfprintf_model s streamFd check realRes realPostErrno :=
  ⟨rfl, rfl, rfl, rfl⟩

end BxlSandbox
